import Mathlib

/-!
Verification of the polling chat synchronizer of `slack_cli.py`
(repository `ryota-nakano/slack-cli`).

The Python source is shallowly embedded: every function below carries a
doc comment naming the source function (and lines) it translates.
Remote Slack Web-API calls are modelled by passing their results in as
explicit `Except`-valued arguments (an API call either returns a payload
or raises `SlackApiError` with an error code string); printing is
modelled by returning the list of messages rendered, in output order,
together with the categories of the error reports produced.
Python `str` comparison (used on Slack `ts` fields) is code-point
lexicographic comparison, embedded as `pyStrLt` below.
-/

namespace SlackCLI

/-- A Slack message record, with the fields `slack_cli.py` reads:
`ts`, `user` (the code reads `msg.get("user", "Unknown")`, so a message
lacking the field is embedded with `user = "Unknown"`), `text`,
`subtype` (`none` when absent), `thread_ts` (`none` when absent) and
`reply_count` (the code reads `msg.get("reply_count", 0)`). -/
structure Message where
  ts : String
  user : String
  text : String
  subtype : Option String
  thread_ts : Option String
  reply_count : Nat
deriving DecidableEq

/-- Python string `<` on two strings: lexicographic comparison of the
code-point sequences.  This is the comparison `slack_cli.py` applies to
`ts` fields (`msg["ts"] > latest_ts`).  `List.lt` on `Char` is exactly
that order, and (unlike the iterator-based order Mathlib puts on
`String`) it evaluates by kernel reduction. -/
def pyStrLt (a b : String) : Bool :=
  decide (a.data < b.data)

/-- Python `str.strip()`: drop whitespace from both ends (line 447:
`message = input(prompt).strip()`). -/
def pyStrip (s : String) : String :=
  ⟨((s.data.dropWhile Char.isWhitespace).reverse.dropWhile Char.isWhitespace).reverse⟩

/-- Python `str.startswith(p)` (line 465: `message.startswith("/reply ")`). -/
def pyStartsWith (p s : String) : Bool :=
  p.data.isPrefixOf s.data

/-- Python `str.split(maxsplit=1)` (line 466): at most two fields; the
first is the first whitespace-delimited word, the second is the
remainder after the following whitespace run (dropped when blank). -/
def pySplitMax1 (s : String) : List String :=
  let l := s.data.dropWhile Char.isWhitespace
  match l with
  | [] => []
  | _ =>
    let first := l.takeWhile (fun c => ¬ c.isWhitespace)
    let rest := (l.dropWhile (fun c => ¬ c.isWhitespace)).dropWhile Char.isWhitespace
    match rest with
    | [] => [⟨first⟩]
    | _ => [⟨first⟩, ⟨rest⟩]

/-- The error categories of `SlackCLI.handle_slack_error` (lines 45-75):
three recognized Slack error codes each get a dedicated remediation
message; every other code falls through to a generic report. -/
inductive ErrCategory where
  | missing_scope_help
  | not_in_channel_help
  | channel_not_found_help
  | generic
deriving DecidableEq

/-- `SlackCLI.handle_slack_error` (lines 45-75): dispatch on
`e.response['error']`.  The embedding returns the category of the
diagnostic printed. -/
def handle_slack_error (error : String) : ErrCategory :=
  if error = "missing_scope" then .missing_scope_help
  else if error = "not_in_channel" then .not_in_channel_help
  else if error = "channel_not_found" then .channel_not_found_help
  else .generic

/-- The subtype filter used by `show_history` (line 387) and
`show_thread` (lines 164, 204): `msg.get("subtype") in ["channel_join",
"channel_leave"]`. -/
def isJoinLeave (m : Message) : Bool :=
  (m.subtype == some "channel_join") || (m.subtype == some "channel_leave")

/-- The user profile fields `get_user_name` reads (line 84):
`response["user"]["profile"].get("display_name")` (may be absent) and
`response["user"]["name"]`. -/
structure UserInfo where
  display_name : Option String
  name : String
deriving DecidableEq

/-- Python's `x or y` for `x` an optional string (line 84): `None` and
`""` are falsy, so both fall through to `y`. -/
def py_or (a : Option String) (b : String) : String :=
  match a with
  | some s => if s = "" then b else s
  | none => b

/-- `SlackCLI.get_user_name` (lines 77-88).  The cache `self.user_cache`
is an association list; the `users_info` API call is passed in as a
function from user id to result.  Returns the resolved name and the
cache after the call. -/
def get_user_name (cache : List (String × String))
    (users_info : String → Except String UserInfo) (user_id : String) :
    String × List (String × String) :=
  match List.lookup user_id cache with
  | some n => (n, cache)
  | none =>
    match users_info user_id with
    | .ok u =>
      let name := py_or u.display_name u.name
      (name, (user_id, name) :: cache)
    | .error _ => (user_id, cache)

/-- `SlackCLI.send_message` (lines 116-144): posts, returning
`response['ts']`; on `SlackApiError` calls `handle_slack_error` and
returns `None`.  The `chat_postMessage` call result is the argument;
the second component is the error report produced, if any. -/
def send_message (post : Except String String) :
    Option String × Option ErrCategory :=
  match post with
  | .ok ts => (some ts, none)
  | .error e => (none, some (handle_slack_error e))

/-- `SlackCLI.show_history` (lines 371-418), restricted to the messages
it renders, in output order: the fetched list is reversed
(`reversed(response["messages"])`, line 383) and entries with a
join/leave subtype are skipped (lines 387-388). -/
def show_history_render (msgs : List Message) : List Message :=
  msgs.reverse.filter (fun m => !(isJoinLeave m))

/-- `SlackCLI.show_thread`, non-interactive display (lines 203-220):
messages are rendered in fetched order, join/leave subtypes skipped. -/
def show_thread_render (msgs : List Message) : List Message :=
  msgs.filter (fun m => !(isJoinLeave m))

/-- `display_messages` inside `SlackCLI.show_thread` (lines 151-183):
keeps the last 21 entries (`messages[-21:]` when `len > 21`), then
skips join/leave subtypes. -/
def thread_display_render (msgs : List Message) : List Message :=
  (if msgs.length > 21 then msgs.drop (msgs.length - 21) else msgs).filter
    (fun m => !(isJoinLeave m))

/-- The reply tally of `show_thread` (lines 158, 201):
`reply_count = len(messages) - 1`, computed before any subtype
filtering. -/
def thread_reply_count (msgs : List Message) : Int :=
  (msgs.length : Int) - 1

/-- The delta-rendering step of `SlackCLI.chat_mode` (lines 496-519):
given the current watermark `latest_ts` and the fetched message list
(in the order the API returned it), iterate `reversed(messages)`,
render each message with `msg["ts"] > latest_ts` whose author is not
the `"Unknown"` sentinel, and finally set
`latest_ts = response["messages"][0]["ts"]`.  Returns the rendered
messages in output order and the new watermark; an empty fetch leaves
the watermark unchanged and renders nothing (line 496). -/
def chat_poll (latest_ts : String) (msgs : List Message) :
    List Message × String :=
  match msgs with
  | [] => ([], latest_ts)
  | first :: _ =>
    (msgs.reverse.filter
       (fun m => pyStrLt latest_ts m.ts && !(m.user == "Unknown")),
     first.ts)

/-- A sequence of polls of one `chat_mode` session: fold `chat_poll`
over the successive fetch results, accumulating the rendered messages. -/
def chat_session (w : String) : List (List Message) → List Message × String
  | [] => ([], w)
  | batch :: rest =>
    let step := chat_poll w batch
    let tail := chat_session step.2 rest
    (step.1 ++ tail.1, tail.2)

/-- The remote contract of the polling fetch: `chat_mode` polls with
`oldest=latest_ts` (lines 485, 492), whose bound is exclusive, so every
returned message is strictly newer than the watermark in force when the
poll was issued.  Checked for each batch of a session in turn. -/
def ValidPolls : String → List (List Message) → Bool
  | _, [] => true
  | w, batch :: rest =>
    batch.all (fun m => pyStrLt w m.ts) && ValidPolls (chat_poll w batch).2 rest

/-- Watermark initialization of `chat_mode` (lines 441-442):
`latest_ts = response["messages"][0]["ts"] if response["messages"] else "0"`. -/
def init_watermark (msgs : List Message) : String :=
  match msgs with
  | [] => "0"
  | m :: _ => m.ts

/-- What arrives at the `chat_mode` input point: a line from `input()`,
or `KeyboardInterrupt`/`EOFError` (lines 521-526), both of which break
the loop. -/
inductive ChatInput where
  | line (s : String)
  | interrupt
deriving DecidableEq

/-- The results of the remote calls one `chat_mode` loop iteration can
issue: the `chat_postMessage` of `send_message` (line 475), the
follow-up history/replies poll (lines 482-494), and the
`conversations_history` issued by `show_history` for `/history`
(line 457). -/
structure ChatRemote where
  send : Except String String
  poll : Except String (List Message)
  history : Except String (List Message)

/-- How one `chat_mode` loop iteration ends: continue to the next
`input()` (AWAITING_INPUT), break out (`/quit`, interrupt, EOF), pivot
into thread mode (`/reply`, lines 465-472), or abort: an exception
escaping the `while` body is caught by the outer handler (line 528),
reported, and `chat_mode` returns. -/
inductive Outcome where
  | next
  | quit
  | pivot (thread_ts : String)
  | aborted (error : String)
deriving DecidableEq

/-- The observable result of one `chat_mode` loop iteration. -/
structure StepResult where
  outcome : Outcome
  latest_ts : String
  rendered : List Message
  reported : List ErrCategory
deriving DecidableEq

/-- Turn the error report of a `send_message` call into the list of
reports it printed. -/
def reportList : Option ErrCategory → List ErrCategory
  | some c => [c]
  | none => []

/-- The body of the `chat_mode` loop in channel mode (`thread_ts =
None`), lines 445-526, applied to an already-stripped input line:
empty line → continue; `/quit` → break; `/history` → one-shot
`show_history` (which catches its own `SlackApiError`, lines 420-421);
`/reply <id>` → recurse into thread mode; anything else is sent with
`send_message` (which catches its own error and returns `None`), after
which the poll runs unconditionally — the poll call is not individually
wrapped, so a `SlackApiError` it raises escapes the `while` loop to the
handler at line 528 and the session ends. -/
def chat_line_step (latest_ts : String) (message : String)
    (remote : ChatRemote) : StepResult :=
  if message = "" then ⟨.next, latest_ts, [], []⟩
  else if message = "/quit" then ⟨.quit, latest_ts, [], []⟩
  else if message = "/history" then
    match remote.history with
    | .ok msgs => ⟨.next, latest_ts, show_history_render msgs, []⟩
    | .error e => ⟨.next, latest_ts, [], [handle_slack_error e]⟩
  else if pyStartsWith "/reply " message then
    match pySplitMax1 message with
    | [_, tts] => ⟨.pivot tts, latest_ts, [], []⟩
    | _ => ⟨.next, latest_ts, [], []⟩
  else
    let sres := send_message remote.send
    match remote.poll with
    | .error e =>
      ⟨.aborted e, latest_ts, [], reportList sres.2 ++ [handle_slack_error e]⟩
    | .ok msgs =>
      let r := chat_poll latest_ts msgs
      ⟨.next, r.2, r.1, reportList sres.2⟩

/-- One full iteration of the `chat_mode` loop (lines 444-526): an
interrupt or EOF breaks the loop; a line is stripped (line 447) and
handled by `chat_line_step`. -/
def chat_step (latest_ts : String) (input : ChatInput)
    (remote : ChatRemote) : StepResult :=
  match input with
  | .interrupt => ⟨.quit, latest_ts, [], []⟩
  | .line s => chat_line_step latest_ts (pyStrip s) remote

/-- How one send-and-refresh step of interactive `show_thread` ends:
stay in the loop with the given transcript, watermark and reports;
abort the session (a `SlackApiError` from the refetch escapes the inner
loop to the handler at line 360); or crash (`messages[-1]` on an empty
refetch result raises `IndexError`). -/
inductive ThreadStep where
  | stay (msgs : List Message) (latest_ts : String) (reported : List ErrCategory)
  | aborted (reported : ErrCategory)
  | crash
deriving DecidableEq

/-- The send handling of interactive `show_thread` (lines 323-335):
`sent_ts = send_message(..., quiet=True)`; only `if sent_ts:` does it
refetch the thread and take `messages[-1]["ts"]` as the new watermark,
so a failed send leaves transcript and watermark untouched. -/
def thread_send_step (msgs : List Message) (latest_ts : String)
    (send : Except String String)
    (refetch : Except String (List Message)) : ThreadStep :=
  let sres := send_message send
  match sres.1 with
  | none => .stay msgs latest_ts (reportList sres.2)
  | some _ =>
    match refetch with
    | .error e => .aborted (handle_slack_error e)
    | .ok new =>
      match new.getLast? with
      | some last => .stay new last.ts (reportList sres.2)
      | none => .crash

/-- Outcome of `main` (lines 568-649): print the usage and
`sys.exit(1)`; print a command-specific error plus example and
`sys.exit(1)` (missing required arguments); print an unknown-command
error plus the usage and `sys.exit(1)`; or dispatch to a subcommand. -/
inductive Dispatch where
  | usageExit
  | errorExit (msg : String)
  | unknownExit (cmd : String)
  | run (cmd : String) (args : List String)
deriving DecidableEq

/-- The argument list `main` dispatches on (lines 575-579):
`sys.argv[1:]` with the first occurrence of `--user` removed when
present (`args.remove("--user")`). -/
def effective_args (argv : List String) : List String :=
  if "--user" ∈ argv then argv.erase "--user" else argv

/-- The subcommand dispatch of `main` (lines 581-649), applied to the
argument list left after `--user` removal: an empty list prints usage
and exits 1; each subcommand checks its own argument count and exits 1
with a specific error message when arguments are missing; an unknown
command prints an error and the usage and exits 1. -/
def main_args (args : List String) : Dispatch :=
  if args.length < 1 then .usageExit
  else
    let command := args.headD ""
    if command = "list" then .run "list" args
    else if command = "send" then
      if args.length < 3 then
        .errorExit "エラー: channel_idとメッセージを指定してください"
      else .run "send" args
    else if command = "reply" then
      if args.length < 4 then
        .errorExit "エラー: channel_id、thread_ts、メッセージを指定してください"
      else .run "reply" args
    else if command = "thread" then
      if args.length < 3 then
        .errorExit "エラー: channel_idとthread_tsを指定してください"
      else .run "thread" args
    else if command = "history" then
      if args.length < 2 then
        .errorExit "エラー: channel_idを指定してください"
      else .run "history" args
    else if command = "chat" then
      if args.length < 2 then
        .errorExit "エラー: channel_idを指定してください"
      else .run "chat" args
    else .unknownExit command

/-- `main` (lines 568-649), taking `sys.argv[1:]`: empty argument list
prints usage and exits 1 (line 569); otherwise `--user` is removed and
`main_args` dispatches on the remaining arguments. -/
def main_dispatch (argv : List String) : Dispatch :=
  if argv.length < 1 then .usageExit
  else main_args (effective_args argv)

/-- Whether a `main` outcome printed the usage text (`print_usage` is
called on the empty-argument paths and on the unknown-command path,
lines 570, 582, 648; the missing-argument paths print only their
specific error). -/
def printsUsage : Dispatch → Bool
  | .usageExit => true
  | .unknownExit _ => true
  | _ => false

/-- The process exit status of a `main` outcome (`sys.exit(1)` on every
error path; a dispatched subcommand falls off `main` normally). -/
def exit_code : Dispatch → Nat
  | .run _ _ => 0
  | _ => 1

/-- Strict chronological order between two messages, by the string
comparison the program uses on `ts`. -/
abbrev tsAsc (a b : Message) : Prop := pyStrLt a.ts b.ts = true

/-- Reverse chronological order (newest first), the order in which the
Slack history API returns a channel feed. -/
abbrev tsDesc (a b : Message) : Prop := pyStrLt b.ts a.ts = true

/-- Bridge between the executable comparison `pyStrLt` and Mathlib's
linear order on `String` (both are code-point lexicographic). -/
theorem pyStrLt_iff (a b : String) : pyStrLt a b = true ↔ a < b := by
  rw [pyStrLt, decide_eq_true_iff]
  exact (@String.lt_iff_toList_lt a b).symm

/-- A single valid poll cannot lower the watermark. -/
theorem chat_poll_mono (w : String) (batch : List Message)
    (h : ∀ m ∈ batch, pyStrLt w m.ts = true) : w ≤ (chat_poll w batch).2 := by
  cases batch with
  | nil => exact le_refl w
  | cons m ms =>
    exact le_of_lt ((pyStrLt_iff w m.ts).mp (h m (List.mem_cons_self m ms)))

/-- After the empty/`/quit`/`/history`/`/reply` checks all fail, a
`chat_mode` iteration takes the send-then-poll branch of lines 474-519. -/
theorem chat_line_step_send (w message : String) (r : ChatRemote)
    (h1 : message ≠ "") (h2 : message ≠ "/quit") (h3 : message ≠ "/history")
    (h4 : pyStartsWith "/reply " message = false) :
    chat_line_step w message r =
      (match r.poll with
       | .error e => ⟨.aborted e, w, [],
           reportList (send_message r.send).2 ++ [handle_slack_error e]⟩
       | .ok msgs => ⟨.next, (chat_poll w msgs).2, (chat_poll w msgs).1,
           reportList (send_message r.send).2⟩) := by
  rw [chat_line_step, if_neg h1, if_neg h2, if_neg h3, if_neg (by simp [h4])]

/-- Claim C1 (amended): across every sequence of successful polls whose
batches respect the exclusive `oldest` lower bound, the watermark is
non-decreasing; after each poll that returns messages the watermark
equals the `ts` of the first message of the response (the newest under
the API's newest-first ordering) — not necessarily the `ts` of the most
recently rendered message, since messages authored by the `"Unknown"`
sentinel advance the watermark without being rendered. -/
theorem c1_watermark_amended (w : String) (polls : List (List Message))
    (h : ValidPolls w polls = true) :
    w ≤ (chat_session w polls).2 ∧
    ∀ (v : String) (m : Message) (rest : List Message),
      (chat_poll v (m :: rest)).2 = m.ts := by
  refine ⟨?_, fun v m rest => rfl⟩
  induction polls generalizing w with
  | nil => exact le_refl w
  | cons batch rest ih =>
    rw [ValidPolls, Bool.and_eq_true] at h
    have step : w ≤ (chat_poll w batch).2 :=
      chat_poll_mono w batch (List.all_eq_true.mp h.1)
    have tail : (chat_poll w batch).2 ≤ (chat_session (chat_poll w batch).2 rest).2 :=
      ih _ h.2
    exact le_trans step tail

/-- Claim C1, witness for the amended theorem. -/
theorem c1_watermark_witness :
    ValidPolls "0" [[⟨"1700000000.000100", "U1", "hi", none, none, 0⟩]] = true ∧
    "0" ≤ (chat_session "0" [[⟨"1700000000.000100", "U1", "hi", none, none, 0⟩]]).2 :=
  ⟨by decide, (c1_watermark_amended "0" _ (by decide)).1⟩

/-- Claim C1, counterexample to the claim as stated: a valid poll whose
newest message is authored by the `"Unknown"` sentinel sets the
watermark to `"2"` while the most recently rendered message has
`ts = "1"`. -/
theorem c1_watermark_counterexample :
    ValidPolls "0" [[⟨"2", "Unknown", "x", none, none, 0⟩,
                     ⟨"1", "U1", "hi", none, none, 0⟩]] = true ∧
    (chat_poll "0" [⟨"2", "Unknown", "x", none, none, 0⟩,
                    ⟨"1", "U1", "hi", none, none, 0⟩]).2 = "2" ∧
    ((chat_poll "0" [⟨"2", "Unknown", "x", none, none, 0⟩,
                     ⟨"1", "U1", "hi", none, none, 0⟩]).1.map Message.ts).getLast?
      = some "1" ∧
    ("2" : String) ≠ "1" := by
  refine ⟨by decide, rfl, by decide, by decide⟩

/-- Claim C2: polling when the remote returns no message strictly newer
than the current watermark (in particular, polling twice in a row with
no new remote messages) renders no additional output. -/
theorem c2_no_rerender (w : String) (b1 b2 : List Message)
    (h : ∀ m ∈ b2, pyStrLt (chat_poll w b1).2 m.ts = false) :
    (chat_poll (chat_poll w b1).2 b2).1 = [] := by
  cases b2 with
  | nil => rfl
  | cons m ms =>
    show List.filter _ (List.reverse (m :: ms)) = []
    rw [List.filter_eq_nil_iff]
    intro a ha
    rw [List.mem_reverse] at ha
    simp [h a ha]

/-- Claim C2, witness: after a poll has moved the watermark to `"1"`,
a second poll that returns the same message again renders nothing. -/
theorem c2_no_rerender_witness :
    (∀ m ∈ [(⟨"1", "U1", "hi", none, none, 0⟩ : Message)],
      pyStrLt (chat_poll "0" [⟨"1", "U1", "hi", none, none, 0⟩]).2 m.ts = false) ∧
    (chat_poll (chat_poll "0" [⟨"1", "U1", "hi", none, none, 0⟩]).2
       [⟨"1", "U1", "hi", none, none, 0⟩]).1 = [] :=
  ⟨by decide, c2_no_rerender "0" _ _ (by decide)⟩

/-- Claim C3 (amended): when the gateway returns the fetch in
reverse-chronological order (newest first), the rendered messages come
out in strictly increasing `ts` order, both in `show_history` and in
the `chat_mode` poll loop; the code only reverses the list, it does not
sort, so this does not hold for arbitrary gateway orderings. -/
theorem c3_order_amended (w : String) (msgs : List Message)
    (h : List.Pairwise tsDesc msgs) :
    List.Pairwise tsAsc (show_history_render msgs) ∧
    List.Pairwise tsAsc ((chat_poll w msgs).1) := by
  have hrev : List.Pairwise tsAsc msgs.reverse := by
    rw [List.pairwise_reverse]
    exact h
  refine ⟨hrev.filter _, ?_⟩
  cases msgs with
  | nil => exact List.Pairwise.nil
  | cons m ms => exact hrev.filter _

/-- Claim C3, witness for the amended theorem. -/
theorem c3_order_witness :
    List.Pairwise tsDesc [(⟨"2", "U2", "b", none, none, 0⟩ : Message),
                          ⟨"1", "U1", "a", none, none, 0⟩] ∧
    List.Pairwise tsAsc
      (show_history_render [⟨"2", "U2", "b", none, none, 0⟩,
                            ⟨"1", "U1", "a", none, none, 0⟩]) :=
  ⟨by decide, (c3_order_amended "0" _ (by decide)).1⟩

/-- Claim C3, counterexample to the claim as stated: a fetch returned in
chronological order is rendered newest-first, so the output is not in
increasing `ts` order. -/
theorem c3_order_counterexample :
    show_history_render [⟨"1", "U1", "a", none, none, 0⟩,
                         ⟨"2", "U2", "b", none, none, 0⟩] =
      [⟨"2", "U2", "b", none, none, 0⟩, ⟨"1", "U1", "a", none, none, 0⟩] ∧
    ¬ List.Pairwise tsAsc
        (show_history_render [⟨"1", "U1", "a", none, none, 0⟩,
                              ⟨"2", "U2", "b", none, none, 0⟩]) := by
  refine ⟨rfl, by decide⟩

/-- Claim C4 (amended): inside a `chat_mode` session, a failed post is
reported (via the four-category `handle_slack_error`) and the loop
continues, and a failed `/history` fetch is reported and the loop
continues with the watermark untouched; but the post-send poll is not
individually wrapped, so a `SlackApiError` it raises is reported by the
handler *outside* the loop and the session ends. -/
theorem c4_errors_amended (w s e : String) (msgs : List Message)
    (hist : Except String (List Message)) (sendr : Except String String)
    (h1 : pyStrip s ≠ "") (h2 : pyStrip s ≠ "/quit") (h3 : pyStrip s ≠ "/history")
    (h4 : pyStartsWith "/reply " (pyStrip s) = false) :
    ((chat_step w (.line s) ⟨.error e, .ok msgs, hist⟩).outcome = .next ∧
     (chat_step w (.line s) ⟨.error e, .ok msgs, hist⟩).reported =
       [handle_slack_error e]) ∧
    (chat_step w (.line "/history") ⟨sendr, .ok msgs, .error e⟩ =
      ⟨.next, w, [], [handle_slack_error e]⟩) ∧
    ((chat_step w (.line s) ⟨sendr, .error e, hist⟩).outcome = .aborted e ∧
     handle_slack_error e ∈ (chat_step w (.line s) ⟨sendr, .error e, hist⟩).reported) ∧
    (handle_slack_error "missing_scope" = .missing_scope_help ∧
     handle_slack_error "not_in_channel" = .not_in_channel_help ∧
     handle_slack_error "channel_not_found" = .channel_not_found_help ∧
     ∀ e', e' ≠ "missing_scope" → e' ≠ "not_in_channel" →
       e' ≠ "channel_not_found" → handle_slack_error e' = .generic) := by
  have hsend : ∀ r : ChatRemote,
      chat_step w (.line s) r =
        (match r.poll with
         | .error e' => ⟨.aborted e', w, [],
             reportList (send_message r.send).2 ++ [handle_slack_error e']⟩
         | .ok ms => ⟨.next, (chat_poll w ms).2, (chat_poll w ms).1,
             reportList (send_message r.send).2⟩) :=
    fun r => chat_line_step_send w (pyStrip s) r h1 h2 h3 h4
  refine ⟨?_, rfl, ?_, rfl, rfl, rfl, ?_⟩
  · rw [hsend]
    exact ⟨rfl, rfl⟩
  · rw [hsend]
    exact ⟨rfl, by simp⟩
  · intro e' k1 k2 k3
    rw [handle_slack_error, if_neg k1, if_neg k2, if_neg k3]

/-- Claim C4, witness for the amended theorem. -/
theorem c4_errors_witness :
    (pyStrip "hello" ≠ "" ∧ pyStrip "hello" ≠ "/quit" ∧
     pyStrip "hello" ≠ "/history" ∧
     pyStartsWith "/reply " (pyStrip "hello") = false) ∧
    (chat_step "0" (.line "hello")
        ⟨.error "not_in_channel", .ok [], .ok []⟩).outcome = .next ∧
    (chat_step "0" (.line "hello")
        ⟨.ok "1", .error "missing_scope", .ok []⟩).outcome = .aborted "missing_scope" :=
  ⟨⟨by decide, by decide, by decide, by decide⟩,
   ((c4_errors_amended "0" "hello" "not_in_channel" [] (.ok []) (.ok "1")
      (by decide) (by decide) (by decide) (by decide)).1).1,
   ((c4_errors_amended "0" "hello" "missing_scope" [] (.ok []) (.ok "1")
      (by decide) (by decide) (by decide) (by decide)).2.2.1).1⟩

/-- Claim C4, counterexample to the claim as stated: a poll fetch that
fails with an API-level error ends the whole session (the outer handler
catches it and `chat_mode` returns) instead of leaving the loop active. -/
theorem c4_errors_counterexample :
    chat_step "0" (.line "hello") ⟨.ok "1", .error "missing_scope", .ok []⟩ =
      ⟨.aborted "missing_scope", "0", [], [ErrCategory.missing_scope_help]⟩ := by
  decide

/-- Claim C5 (amended): messages with subtype `channel_join` or
`channel_leave` are never rendered by the history display or by either
thread display; the `chat_mode` poll loop, however, does not filter by
subtype, and the thread reply total `len(messages) - 1` counts
join/leave entries. -/
theorem c5_joinleave_amended (m : Message) (msgs : List Message)
    (h : isJoinLeave m = true) :
    m ∉ show_history_render msgs ∧ m ∉ show_thread_render msgs ∧
    m ∉ thread_display_render msgs := by
  refine ⟨fun hm => ?_, fun hm => ?_, fun hm => ?_⟩ <;>
  · simp only [show_history_render, show_thread_render, thread_display_render,
      List.mem_filter] at hm
    simp [h] at hm

/-- Claim C5, witness for the amended theorem. -/
theorem c5_joinleave_witness :
    isJoinLeave ⟨"1", "U1", "joined", some "channel_join", none, 0⟩ = true ∧
    (⟨"1", "U1", "joined", some "channel_join", none, 0⟩ : Message) ∉
      show_history_render [⟨"1", "U1", "joined", some "channel_join", none, 0⟩,
                           ⟨"2", "U2", "hi", none, none, 0⟩] :=
  ⟨by decide,
   (c5_joinleave_amended _ [⟨"1", "U1", "joined", some "channel_join", none, 0⟩,
                            ⟨"2", "U2", "hi", none, none, 0⟩] (by decide)).1⟩

/-- Claim C5, counterexample to the claim as stated: the `chat_mode`
poll loop renders a `channel_join` message (it filters only on `ts` and
on the `"Unknown"` author sentinel), and the thread reply tally
`len(messages) - 1` counts a join message as a reply. -/
theorem c5_joinleave_counterexample :
    (chat_poll "0" [⟨"1", "U1", "joined", some "channel_join", none, 0⟩]).1 =
      [⟨"1", "U1", "joined", some "channel_join", none, 0⟩] ∧
    thread_reply_count [⟨"0.5", "U0", "parent", none, none, 0⟩,
                        ⟨"1", "U1", "joined", some "channel_join", none, 0⟩] = 1 := by
  refine ⟨by decide, by decide⟩

/-- Claim C6 (amended): when a post fails, the error is reported and the
session returns to awaiting input; in interactive `show_thread` the
failed send skips the refetch, leaving transcript and watermark
unchanged; in channel `chat_mode` the post-send poll runs regardless of
the send result, so the watermark is unchanged only when that poll
returns no messages. -/
theorem c6_failed_send_amended (msgs : List Message) (w e s : String)
    (refetch : Except String (List Message))
    (hist : Except String (List Message))
    (h1 : pyStrip s ≠ "") (h2 : pyStrip s ≠ "/quit") (h3 : pyStrip s ≠ "/history")
    (h4 : pyStartsWith "/reply " (pyStrip s) = false) :
    thread_send_step msgs w (.error e) refetch =
      .stay msgs w [handle_slack_error e] ∧
    ((chat_step w (.line s) ⟨.error e, .ok [], hist⟩).outcome = .next ∧
     (chat_step w (.line s) ⟨.error e, .ok [], hist⟩).latest_ts = w ∧
     (chat_step w (.line s) ⟨.error e, .ok [], hist⟩).reported =
       [handle_slack_error e]) := by
  refine ⟨rfl, ?_⟩
  have hsend : chat_step w (.line s) ⟨.error e, .ok [], hist⟩ =
      ⟨.next, (chat_poll w []).2, (chat_poll w []).1,
        reportList (send_message (.error e)).2⟩ :=
    chat_line_step_send w (pyStrip s) _ h1 h2 h3 h4
  rw [hsend]
  exact ⟨rfl, rfl, rfl⟩

/-- Claim C6, witness for the amended theorem. -/
theorem c6_failed_send_witness :
    thread_send_step [⟨"1", "U1", "a", none, none, 0⟩] "1"
        (.error "channel_not_found") (.ok []) =
      .stay [⟨"1", "U1", "a", none, none, 0⟩] "1"
        [handle_slack_error "channel_not_found"] ∧
    (chat_step "1" (.line "hi")
        ⟨.error "channel_not_found", .ok [], .ok []⟩).latest_ts = "1" :=
  ⟨(c6_failed_send_amended [⟨"1", "U1", "a", none, none, 0⟩] "1" "channel_not_found"
      "hi" (.ok []) (.ok []) (by decide) (by decide) (by decide) (by decide)).1,
   (c6_failed_send_amended [⟨"1", "U1", "a", none, none, 0⟩] "1" "channel_not_found"
      "hi" (.ok []) (.ok []) (by decide) (by decide) (by decide) (by decide)).2.2.1⟩

/-- Claim C6, counterexample to the claim as stated: in `chat_mode` a
failed send is reported, yet the unconditional follow-up poll advances
the watermark from `"0"` to `"1"` when another participant's message
arrived. -/
theorem c6_failed_send_counterexample :
    chat_step "0" (.line "hello")
        ⟨.error "missing_scope", .ok [⟨"1", "U1", "yo", none, none, 0⟩], .ok []⟩ =
      ⟨.next, "1", [⟨"1", "U1", "yo", none, none, 0⟩],
       [ErrCategory.missing_scope_help]⟩ := by
  decide

/-- Claim C7: `get_user_name` returns the cached name on a hit (the
result does not depend on the remote and the cache is unchanged); on a
miss it fetches once, stores and returns
`display_name = profile_display_name or account_name` (an empty or
absent profile display name falls through to the account name), and a
subsequent call for the same id hits the cache; on remote failure it
returns the raw id and caches nothing; the cache grows by at most one
entry per call. -/
theorem c7_get_user_name (cache : List (String × String))
    (r : String → Except String UserInfo) (uid n e : String) (u : UserInfo) :
    (List.lookup uid cache = some n →
      ∀ r2 : String → Except String UserInfo,
        get_user_name cache r2 uid = (n, cache)) ∧
    (List.lookup uid cache = none → r uid = .ok u →
      get_user_name cache r uid =
        (py_or u.display_name u.name, (uid, py_or u.display_name u.name) :: cache) ∧
      ((u.display_name = some "" ∨ u.display_name = none) →
        py_or u.display_name u.name = u.name) ∧
      (∀ r2 : String → Except String UserInfo,
        get_user_name ((uid, py_or u.display_name u.name) :: cache) r2 uid =
          (py_or u.display_name u.name,
           (uid, py_or u.display_name u.name) :: cache))) ∧
    (List.lookup uid cache = none → r uid = .error e →
      get_user_name cache r uid = (uid, cache)) ∧
    (get_user_name cache r uid).2.length ≤ cache.length + 1 := by
  refine ⟨?_, ?_, ?_, ?_⟩
  · intro h r2
    rw [get_user_name, h]
  · intro h hr
    refine ⟨by rw [get_user_name, h, hr], ?_, ?_⟩
    · rintro (hd | hd) <;> simp [py_or, hd]
    · intro r2
      rw [get_user_name]
      simp [List.lookup_cons]
  · intro h hr
    rw [get_user_name, h, hr]
  · rw [get_user_name]
    cases List.lookup uid cache with
    | some _ => exact Nat.le_succ _
    | none =>
      cases r uid with
      | ok _ => simp
      | error _ => exact Nat.le_succ _

/-- Claim C7, witness: the spec scenario — `U1` has an empty profile
display name and account name `"alice"`; the first call resolves and
caches `"alice"`, the second returns the cached value even though the
remote now fails. -/
theorem c7_get_user_name_witness :
    get_user_name [] (fun _ => .ok ⟨some "", "alice"⟩) "U1" =
      ("alice", [("U1", "alice")]) ∧
    get_user_name [("U1", "alice")] (fun _ => .error "ratelimited") "U1" =
      ("alice", [("U1", "alice")]) :=
  ⟨((c7_get_user_name [] (fun _ => .ok ⟨some "", "alice"⟩) "U1" "x" "ratelimited"
      ⟨some "", "alice"⟩).2.1 rfl rfl).1,
   ((c7_get_user_name [] (fun _ => .ok ⟨some "", "alice"⟩) "U1" "x" "ratelimited"
      ⟨some "", "alice"⟩).2.1 rfl rfl).2.2 (fun _ => .error "ratelimited")⟩

/-- Claim C8: at `chat_mode` start the watermark is the `ts` of the
first (newest, under the API's newest-first order) message when the
conversation is non-empty — an upper bound of the whole fetched tail —
and the sentinel `"0"` when it is empty; the sentinel compares below
every well-formed Slack `ts` (a digit string not equal to `"0"`), so
the first poll's `msg["ts"] > latest_ts` test accepts every message
present. -/
theorem c8_init_watermark :
    init_watermark ([] : List Message) = "0" ∧
    (∀ (msgs : List Message) (m : Message),
      List.Pairwise tsDesc msgs → m ∈ msgs → m.ts ≤ init_watermark msgs) ∧
    (∀ (ts : String) (c : Char) (rest : List Char),
      ts.data = c :: rest → ('0' : Char) ≤ c → ts ≠ "0" →
      pyStrLt "0" ts = true) ∧
    (∀ m : Message, pyStrLt "0" m.ts = true → (m.user == "Unknown") = false →
      (chat_poll "0" [m]).1 = [m]) := by
  refine ⟨rfl, ?_, ?_, ?_⟩
  · intro msgs m hp hm
    cases msgs with
    | nil => cases hm
    | cons m0 ms =>
      rcases List.mem_cons.mp hm with h | h
      · subst h
        exact le_refl _
      · exact le_of_lt ((pyStrLt_iff m.ts m0.ts).mp ((List.pairwise_cons.mp hp).1 m h))
  · intro ts c rest hdata hle hne
    rw [pyStrLt]
    apply decide_eq_true
    show List.Lex (· < ·) "0".data ts.data
    rw [hdata]
    rcases lt_or_eq_of_le hle with hlt | heq
    · exact List.Lex.rel hlt
    · cases heq
      cases rest with
      | nil =>
        exact absurd (by cases ts with | mk d => cases hdata; rfl) hne
      | cons r rs => exact List.Lex.cons List.Lex.nil
  · intro m h1 h2
    simp [chat_poll, List.filter_cons, h1, h2]

/-- Claim C8, witness. -/
theorem c8_init_watermark_witness :
    (List.Pairwise tsDesc [(⟨"2", "U2", "b", none, none, 0⟩ : Message),
                           ⟨"1", "U1", "a", none, none, 0⟩] ∧
     Message.ts ⟨"1", "U1", "a", none, none, 0⟩ ≤
       init_watermark [⟨"2", "U2", "b", none, none, 0⟩,
                       ⟨"1", "U1", "a", none, none, 0⟩]) ∧
    (("1700000000.000100" : String).data = '1' :: "700000000.000100".data ∧
     pyStrLt "0" "1700000000.000100" = true) ∧
    (chat_poll "0" [⟨"1700000000.000100", "U1", "a", none, none, 0⟩]).1 =
      [⟨"1700000000.000100", "U1", "a", none, none, 0⟩] :=
  ⟨⟨by decide,
    c8_init_watermark.2.1 _ _ (by decide)
      (by simp)⟩,
   ⟨rfl,
    c8_init_watermark.2.2.1 "1700000000.000100" '1' "700000000.000100".data rfl
      (by decide) (by decide)⟩,
   c8_init_watermark.2.2.2 _
     (c8_init_watermark.2.2.1 "1700000000.000100" '1' "700000000.000100".data rfl
       (by decide) (by decide)) (by decide)⟩

/-- The per-subcommand arity checks of `main` (lines 596-644): whenever
the post-`--user` argument list starts with a known subcommand and is
shorter than that subcommand requires, the dispatch is the
command-specific error exit. -/
theorem main_args_missing (args : List String) :
    (args.headD "" = "send" → args.length < 3 →
      main_args args = .errorExit "エラー: channel_idとメッセージを指定してください") ∧
    (args.headD "" = "reply" → args.length < 4 →
      main_args args = .errorExit "エラー: channel_id、thread_ts、メッセージを指定してください") ∧
    (args.headD "" = "thread" → args.length < 3 →
      main_args args = .errorExit "エラー: channel_idとthread_tsを指定してください") ∧
    (args.headD "" = "history" → args.length < 2 →
      main_args args = .errorExit "エラー: channel_idを指定してください") ∧
    (args.headD "" = "chat" → args.length < 2 →
      main_args args = .errorExit "エラー: channel_idを指定してください") := by
  cases args with
  | nil =>
    refine ⟨?_, ?_, ?_, ?_, ?_⟩ <;> (intro h1; exact absurd h1 (by decide))
  | cons a as =>
    refine ⟨?_, ?_, ?_, ?_, ?_⟩ <;> intro h1 h2 <;>
      rw [List.headD_cons] at h1 <;> subst h1 <;>
      rw [main_args, if_neg (by simp)] <;> simp only [List.headD_cons]
    · rw [if_neg (by decide), if_pos trivial, if_pos h2]
    · rw [if_neg (by decide), if_neg (by decide), if_pos trivial, if_pos h2]
    · rw [if_neg (by decide), if_neg (by decide), if_neg (by decide),
        if_pos trivial, if_pos h2]
    · rw [if_neg (by decide), if_neg (by decide), if_neg (by decide),
        if_neg (by decide), if_pos trivial, if_pos h2]
    · rw [if_neg (by decide), if_neg (by decide), if_neg (by decide),
        if_neg (by decide), if_neg (by decide), if_pos trivial, if_pos h2]

/-- Claim C9 (amended): an unknown subcommand prints the usage and exits
with status 1, as does an empty argument list; every invocation of a
known subcommand with its required arguments missing (any argument
list whose post-`--user` form starts with that subcommand and is
shorter than it requires) prints a command-specific error message —
not the usage — and exits with status 1. -/
theorem c9_usage_amended (cmd : String) (rest : List String) (argv : List String)
    (hk : cmd ∉ ["list", "send", "reply", "thread", "history", "chat"])
    (hu : cmd ≠ "--user") (hr : "--user" ∉ rest) :
    (main_dispatch (cmd :: rest) = .unknownExit cmd ∧
     printsUsage (main_dispatch (cmd :: rest)) = true ∧
     exit_code (main_dispatch (cmd :: rest)) = 1) ∧
    main_dispatch [] = .usageExit ∧
    ((effective_args argv).headD "" = "send" → (effective_args argv).length < 3 →
      main_dispatch argv = .errorExit "エラー: channel_idとメッセージを指定してください") ∧
    ((effective_args argv).headD "" = "reply" → (effective_args argv).length < 4 →
      main_dispatch argv = .errorExit "エラー: channel_id、thread_ts、メッセージを指定してください") ∧
    ((effective_args argv).headD "" = "thread" → (effective_args argv).length < 3 →
      main_dispatch argv = .errorExit "エラー: channel_idとthread_tsを指定してください") ∧
    ((effective_args argv).headD "" = "history" → (effective_args argv).length < 2 →
      main_dispatch argv = .errorExit "エラー: channel_idを指定してください") ∧
    ((effective_args argv).headD "" = "chat" → (effective_args argv).length < 2 →
      main_dispatch argv = .errorExit "エラー: channel_idを指定してください") ∧
    (∀ (d : Dispatch) (m : String), d = .errorExit m →
      printsUsage d = false ∧ exit_code d = 1) := by
  have hdisp : ∀ (a : String) (as : List String),
      main_dispatch (a :: as) = main_args (effective_args (a :: as)) := by
    intro a as
    rw [main_dispatch, if_neg (by simp)]
  refine ⟨?_, by decide, ?_, ?_, ?_, ?_, ?_, ?_⟩
  · have hmem : "--user" ∉ (cmd :: rest) := by
      intro hin
      rcases List.mem_cons.mp hin with h | h
      · exact hu h.symm
      · exact hr h
    have k1 : cmd ≠ "list" := fun h => hk (by rw [h]; decide)
    have k2 : cmd ≠ "send" := fun h => hk (by rw [h]; decide)
    have k3 : cmd ≠ "reply" := fun h => hk (by rw [h]; decide)
    have k4 : cmd ≠ "thread" := fun h => hk (by rw [h]; decide)
    have k5 : cmd ≠ "history" := fun h => hk (by rw [h]; decide)
    have k6 : cmd ≠ "chat" := fun h => hk (by rw [h]; decide)
    have hmain : main_dispatch (cmd :: rest) = .unknownExit cmd := by
      rw [hdisp, effective_args, if_neg hmem]
      rw [main_args, if_neg (by simp)]
      simp only [List.headD_cons]
      rw [if_neg k1, if_neg k2, if_neg k3, if_neg k4, if_neg k5, if_neg k6]
    exact ⟨hmain, by rw [hmain]; rfl, by rw [hmain]; rfl⟩
  · intro h1 h2
    cases argv with
    | nil => exact absurd h1 (by decide)
    | cons a as => rw [hdisp]; exact (main_args_missing _).1 h1 h2
  · intro h1 h2
    cases argv with
    | nil => exact absurd h1 (by decide)
    | cons a as => rw [hdisp]; exact (main_args_missing _).2.1 h1 h2
  · intro h1 h2
    cases argv with
    | nil => exact absurd h1 (by decide)
    | cons a as => rw [hdisp]; exact (main_args_missing _).2.2.1 h1 h2
  · intro h1 h2
    cases argv with
    | nil => exact absurd h1 (by decide)
    | cons a as => rw [hdisp]; exact (main_args_missing _).2.2.2.1 h1 h2
  · intro h1 h2
    cases argv with
    | nil => exact absurd h1 (by decide)
    | cons a as => rw [hdisp]; exact (main_args_missing _).2.2.2.2 h1 h2
  · intro d m hd
    subst hd
    exact ⟨rfl, rfl⟩

/-- Claim C9, witness for the amended theorem: the unknown command
`foo`, and the missing-argument invocation `--user send` (whose
post-`--user` argument list is `[send]`, shorter than `send`
requires). -/
theorem c9_usage_witness :
    (("foo" : String) ∉ ["list", "send", "reply", "thread", "history", "chat"]) ∧
    main_dispatch ["foo"] = .unknownExit "foo" ∧
    printsUsage (main_dispatch ["foo"]) = true ∧
    ((effective_args ["--user", "send"]).headD "" = "send" ∧
     (effective_args ["--user", "send"]).length < 3 ∧
     main_dispatch ["--user", "send"] =
       .errorExit "エラー: channel_idとメッセージを指定してください") :=
  ⟨by decide,
   ((c9_usage_amended "foo" [] ["--user", "send"] (by decide) (by decide)
      (by decide)).1).1,
   ((c9_usage_amended "foo" [] ["--user", "send"] (by decide) (by decide)
      (by decide)).1).2.1,
   by decide, by decide,
   (c9_usage_amended "foo" [] ["--user", "send"] (by decide) (by decide)
      (by decide)).2.2.1 (by decide) (by decide)⟩

/-- Claim C9, counterexample to the claim as stated: `send` with a
missing message argument exits with status 1 but prints its specific
error message, not the usage text. -/
theorem c9_usage_counterexample :
    main_dispatch ["send", "C1"] =
      .errorExit "エラー: channel_idとメッセージを指定してください" ∧
    printsUsage (main_dispatch ["send", "C1"]) = false ∧
    exit_code (main_dispatch ["send", "C1"]) = 1 := by
  decide

/-- Claim C10: `send_message` never raises on a gateway error — it
returns the posted message's `ts` on success and, after reporting the
categorized error, `None` on any `SlackApiError`, so the return value
alone distinguishes success from failure. -/
theorem c10_send_result (post : Except String String) :
    (∀ ts, post = .ok ts → send_message post = (some ts, none)) ∧
    (∀ e, post = .error e →
      send_message post = (none, some (handle_slack_error e))) ∧
    ((send_message post).1.isSome ↔ ∃ ts, post = .ok ts) := by
  refine ⟨?_, ?_, ?_⟩ <;> cases post <;> simp [send_message]

/-- Claim C10, witness. -/
theorem c10_send_result_witness :
    send_message (.ok "1700000000.000100") = (some "1700000000.000100", none) ∧
    send_message (.error "channel_not_found") =
      (none, some (handle_slack_error "channel_not_found")) :=
  ⟨(c10_send_result _).1 _ rfl, (c10_send_result _).2.1 _ rfl⟩

end SlackCLI
